import Mathlib

/-!
Verification of the window-acquisition and placement core of
`launch_on_please.py` (Launch-On-Please).

The Python source is shallowly embedded below.  Machine integers are
modelled as `Nat`/`Int` (window style words are bit patterns, hence `Nat`;
pixel coordinates are `Int`).  Python `None` becomes `Option`; Python
truthiness of containers is modelled explicitly (an empty list/set and the
empty string are falsy).  Python `//` (floor division) is `Int.fdiv`.
Wall-clock polling loops are modelled by explicit traces: one list entry
per executed poll iteration, the list length being the number of polls
that fit into the loop's time budget (interval 50 ms).  OS queries that
the program merely reads (window visibility, styles, rectangles, process
ids and names) are fields of the `Window` / environment structures.
-/

/-- A window or monitor rectangle `(left, top, right, bottom)`,
as returned by GetWindowRect. -/
abbrev Rect4 : Type := Int × Int × Int × Int

/-- Source constant `RECT_TOL = 3` (px tolerance for rect change detection). -/
def RECT_TOL : Int := 3

/-- Source constant `POLL_INTERVAL = 0.05` s, expressed in milliseconds. -/
def POLL_INTERVAL_MS : Nat := 50

/-- Source constant `STABLE_MS_BEFORE_MOVE = 400`. -/
def STABLE_MS_BEFORE_MOVE : Nat := 400

/-- Source constant `WAIT_TIMEOUT_SEC = 45`. -/
def WAIT_TIMEOUT_SEC : Nat := 45

/-- Source constant `EARLY_MOVE_ON_DETECT = True`. -/
def EARLY_MOVE_ON_DETECT : Bool := true

/-- Embedding of `rect_changed(a, b, tol=RECT_TOL)`:
`None` for either rectangle counts as changed, otherwise some edge must
differ by more than `tol` pixels.  (`rect()` returns `None` on a failed
GetWindowRect, modelled by `Option`.) -/
def rect_changed (a b : Option Rect4) : Bool :=
  match a, b with
  | none, _ => true
  | some _, none => true
  | some (al, at', ar, ab), some (bl, bt, br, bb) =>
    decide (RECT_TOL < |al - bl| ∨ RECT_TOL < |at' - bt| ∨
            RECT_TOL < |ar - br| ∨ RECT_TOL < |ab - bb|)

/-! Win32 style constants used by `is_main_style`
(values from `win32con`). -/

/-- Style bit `WS_OVERLAPPED` (zero: contributes nothing to a mask). -/
def WS_OVERLAPPED : Nat := 0x00000000

/-- Style bit `WS_CAPTION`. -/
def WS_CAPTION : Nat := 0x00C00000

/-- Style bit `WS_SYSMENU`. -/
def WS_SYSMENU : Nat := 0x00080000

/-- Style bit `WS_THICKFRAME`. -/
def WS_THICKFRAME : Nat := 0x00040000

/-- Style bit `WS_MINIMIZEBOX`. -/
def WS_MINIMIZEBOX : Nat := 0x00020000

/-- Style bit `WS_MAXIMIZEBOX`. -/
def WS_MAXIMIZEBOX : Nat := 0x00010000

/-- Extended style bit `WS_EX_TOOLWINDOW`. -/
def WS_EX_TOOLWINDOW : Nat := 0x00000080

/-- The mask the source builds inside `is_main_style`:
`WS_OVERLAPPED | WS_CAPTION | WS_SYSMENU | WS_THICKFRAME | WS_MINIMIZEBOX | WS_MAXIMIZEBOX`. -/
def WS_OVERLAPPEDWINDOW : Nat :=
  WS_OVERLAPPED ||| WS_CAPTION ||| WS_SYSMENU ||| WS_THICKFRAME |||
  WS_MINIMIZEBOX ||| WS_MAXIMIZEBOX

/-- One visible top-level window as observed by the scanner's read-only OS
queries.  `pid` is the result of `hwnd_pid` (`None` on a failed query);
`procName` is the process's reported executable name (`None` when the
psutil lookup fails); `rect` is the GetWindowRect result (`None` on
failure). -/
structure Window : Type where
  hwnd : Nat
  visible : Bool
  style : Nat
  exStyle : Nat
  rect : Option Rect4
  pid : Option Nat
  procName : Option String
deriving Repr, DecidableEq

/-- Embedding of `is_main_style(hwnd)`: Python evaluates
`(style & WS_OVERLAPPEDWINDOW) and not is_tool`, i.e. the conjunction is
truthy when the masked style word is NONZERO (any of the mask's bits) and
the tool-window extended bit is absent. -/
def is_main_style (w : Window) : Bool :=
  decide (w.style &&& WS_OVERLAPPEDWINDOW ≠ 0) &&
  !(decide (w.exStyle &&& WS_EX_TOOLWINDOW ≠ 0))

/-- Embedding of `hwnd_exe_name(hwnd)`: empty string when the pid query
failed or returned a falsy pid (0), or when the psutil name lookup fails;
otherwise the lower-cased process name. -/
def hwnd_exe_name (w : Window) : String :=
  match w.pid with
  | none => ""
  | some p =>
    if p = 0 then ""
    else match w.procName with
         | some n => n.toLower
         | none => ""

/-- Filter part of `pick_best_window_by`'s enumeration callback: the window
must be visible, have main-window style, have a readable rectangle, and be
at least 200 px wide and 150 px tall. -/
def passes_filter (w : Window) : Bool :=
  w.visible && is_main_style w &&
  (match w.rect with
   | none => false
   | some (l, t, r, b) => !(decide (r - l < 200) || decide (b - t < 150)))

/-- Scoring part of `pick_best_window_by`: `+1000` when a truthy pid set is
supplied and the window's pid is in it, `+500` when a truthy (non-empty)
expected name is supplied and equals the window's lower-cased executable
name, `+200` when a truthy (non-empty) pre-launch snapshot is supplied and
the handle is absent from it.  The truthiness guards mirror the Python
conditions `pid_set and pid in pid_set`, `exe_base and name == exe_base`,
`since_handles and hwnd not in since_handles`.  Condition of
`pid_set and pid in pid_set`: -/
def pidHit (pid_set : Option (List Nat)) (w : Window) : Bool :=
  match pid_set, w.pid with
  | some ps, some p => !ps.isEmpty && ps.contains p
  | some _, none => false
  | none, _ => false

/-- Condition of `exe_base and name == exe_base` (a supplied non-empty
expected name that equals the window's lower-cased executable name). -/
def nameHit (exe_base : Option String) (w : Window) : Bool :=
  match exe_base with
  | some e => !(e == "") && (hwnd_exe_name w == e)
  | none => false

/-- Condition of `since_handles and hwnd not in since_handles` (a supplied
non-empty pre-launch snapshot that does not contain the handle). -/
def newHit (since_handles : Option (List Nat)) (w : Window) : Bool :=
  match since_handles with
  | some hs => !hs.isEmpty && !hs.contains w.hwnd
  | none => false

/-- The candidate score accumulated by `pick_best_window_by`. -/
def candScore (pid_set : Option (List Nat)) (exe_base : Option String)
    (since_handles : Option (List Nat)) (w : Window) : Nat :=
  (if pidHit pid_set w then 1000 else 0) +
  (if nameHit exe_base w then 500 else 0) +
  (if newHit since_handles w then 200 else 0)

/-- Window area `w*h`, the sort tie-break key of `pick_best_window_by`. -/
def winArea (w : Window) : Int :=
  match w.rect with
  | some (l, t, r, b) => (r - l) * (b - t)
  | none => 0

/-- The candidate list `pick_best_window_by` accumulates: a
`(score, area, hwnd)` triple for every filtered window with positive
score, in enumeration order. -/
def scan_candidates (pid_set : Option (List Nat)) (exe_base : Option String)
    (since_handles : Option (List Nat)) (ws : List Window) :
    List (Nat × Int × Nat) :=
  ws.filterMap (fun w =>
    if passes_filter w then
      if 0 < candScore pid_set exe_base since_handles w then
        some (candScore pid_set exe_base since_handles w, winArea w, w.hwnd)
      else none
    else none)

/-- Strict lexicographic comparison on `(score, area)`: `c` beats `b`. -/
def beats (b c : Nat × Int × Nat) : Bool :=
  decide (b.1 < c.1 ∨ (b.1 = c.1 ∧ b.2.1 < c.2.1))

/-- One reduction step of taking the best candidate: replace the running
best only on a strict improvement, which keeps the earliest element among
ties exactly as Python's stable `sort(key=(score, area), reverse=True)`
followed by `candidates[0]` does. -/
def pickStep (best x : Nat × Int × Nat) : Nat × Int × Nat :=
  if beats best x then x else best

/-- Embedding of `pick_best_window_by(pid_set, exe_base, since_handles)`
over the list of currently visible top-level windows `ws`. -/
def pick_best_window_by (pid_set : Option (List Nat))
    (exe_base : Option String) (since_handles : Option (List Nat))
    (ws : List Window) : Option Nat :=
  match scan_candidates pid_set exe_base since_handles ws with
  | [] => none
  | c :: cs => some ((cs.foldl pickStep c).2.2)

/-- One poll observation inside `wait_for_stable_window`: the result of
`select_fn()` and, when a candidate was returned, the candidate's
rectangle (`None` on a failed GetWindowRect). -/
structure AcqObs : Type where
  cand : Option Nat
  curRect : Option Rect4
deriving Repr, DecidableEq

/-- The loop state of the stability path of `wait_for_stable_window`:
selected handle, the rectangle recorded when the stable counter was last
reset, and the accumulated stable time in milliseconds. -/
structure AcqState : Type where
  hwnd : Option Nat
  lastRect : Option Rect4
  stableMs : Nat
deriving Repr, DecidableEq

/-- One candidate-bearing poll of the stability path: reset the selection
and zero the counter when there was no recorded rectangle, the candidate
changed, or the candidate's rectangle changed beyond tolerance relative to
the recorded one; otherwise accumulate one poll interval. -/
def stablePoll (s : AcqState) (c : Nat) (cur : Option Rect4) : AcqState :=
  if s.lastRect = none ∨ s.hwnd ≠ some c ∨ rect_changed cur s.lastRect = true
  then ⟨some c, cur, 0⟩
  else ⟨s.hwnd, s.lastRect, s.stableMs + POLL_INTERVAL_MS⟩

/-- The stability path of `wait_for_stable_window`: the trace lists one
entry per poll executed before the deadline; polls whose `select_fn()`
returned nothing leave the state untouched; the handle is returned as soon
as the accumulated stable time reaches the threshold. -/
def waitStable : AcqState → List AcqObs → Option Nat
  | _, [] => none
  | s, o :: rest =>
    match o.cand with
    | none => waitStable s rest
    | some c =>
      if STABLE_MS_BEFORE_MOVE ≤ (stablePoll s c o.curRect).stableMs
      then (stablePoll s c o.curRect).hwnd
      else waitStable (stablePoll s c o.curRect) rest

/-- The states the stability path passes through, one entry per
candidate-bearing poll (the whole trace, with no early exit). -/
def stableStates : AcqState → List AcqObs → List AcqState
  | _, [] => []
  | s, o :: rest =>
    match o.cand with
    | none => stableStates s rest
    | some c => stablePoll s c o.curRect :: stableStates (stablePoll s c o.curRect) rest

/-- The early-detect path of `wait_for_stable_window`: return the first
poll whose `select_fn()` produced a candidate. -/
def waitEarly : List AcqObs → Option Nat
  | [] => none
  | o :: rest =>
    match o.cand with
    | some c => some c
    | none => waitEarly rest

/-- Embedding of `wait_for_stable_window(select_fn, timeout)`: the
configuration flag selects the early-detect or the stability path, and the
trace length is the number of polls fitting into the timeout. -/
def wait_for_stable_window (early : Bool) (trace : List AcqObs) : Option Nat :=
  if early then waitEarly trace else waitStable ⟨none, none, 0⟩ trace

/-- One poll of `ensure_on_target`: whether the window is still a valid
visible window (a win32 error during the check behaves like invalid: the
loop returns), the monitor currently containing the window, its current
rectangle, and the rectangle observed right after `move_and_set` at this
poll (consulted only on polls that re-apply placement; the launched
application may move the window at any time, so this is an input of the
environment). -/
structure DriftObs : Type where
  alive : Bool
  curHmon : Nat
  curRect : Option Rect4
  afterRect : Option Rect4
deriving Repr, DecidableEq

/-- Embedding of the loop of `ensure_on_target(hwnd, hmon_target, mode,
seconds)`: one Boolean per executed poll, true when placement was
re-applied there.  The baseline `last` starts as the rectangle observed
when the watchdog started, and is overwritten EVERY poll with the
rectangle observed at the end of that poll. -/
def ensure_on_target (target : Nat) : Option Rect4 → List DriftObs → List Bool
  | _, [] => []
  | last, o :: rest =>
    if o.alive then
      (decide (o.curHmon ≠ target) || rect_changed o.curRect last) ::
        ensure_on_target target
          (if decide (o.curHmon ≠ target) || rect_changed o.curRect last
           then o.afterRect else o.curRect) rest
    else []

/-- A drift trace in which the window stays valid on the target monitor
and each poll's rectangle is within tolerance of the PREVIOUS poll's
rectangle (arbitrary total drift). -/
def slowDrift (target : Nat) : Option Rect4 → List DriftObs → Bool
  | _, [] => true
  | last, o :: rest =>
    o.alive && decide (o.curHmon = target) && !(rect_changed o.curRect last) &&
    slowDrift target o.curRect rest

/-- The park rectangle computed inside `move_and_set` for the
maximize/workarea modes, from the target monitor's work area: medium
size clamped to 800–1200 × 600–900, offset from the work-area origin by
`max(20, (wa_w - park_w)//2)` and `max(20, (wa_h - park_h)//3)`. -/
def parkRect (waL waT waR waB : Int) : Rect4 :=
  (waL + max 20 (((waR - waL) - min 1200 (max 800 ((waR - waL) - 200))).fdiv 2),
   waT + max 20 (((waB - waT) - min 900 (max 600 ((waB - waT) - 200))).fdiv 3),
   waL + max 20 (((waR - waL) - min 1200 (max 800 ((waR - waL) - 200))).fdiv 2) +
     min 1200 (max 800 ((waR - waL) - 200)),
   waT + max 20 (((waB - waT) - min 900 (max 600 ((waB - waT) - 200))).fdiv 3) +
     min 900 (max 600 ((waB - waT) - 200)))

/-- The conjunction of C5's measurements of the park rectangle: width
clamped to 800–1200, height clamped to 600–900, and the rectangle
contained in the work area `(waL, waT, waR, waB)`. -/
def park_inside (waL waT waR waB : Int) : Prop :=
  800 ≤ (parkRect waL waT waR waB).2.2.1 - (parkRect waL waT waR waB).1 ∧
  (parkRect waL waT waR waB).2.2.1 - (parkRect waL waT waR waB).1 ≤ 1200 ∧
  600 ≤ (parkRect waL waT waR waB).2.2.2 - (parkRect waL waT waR waB).2.1 ∧
  (parkRect waL waT waR waB).2.2.2 - (parkRect waL waT waR waB).2.1 ≤ 900 ∧
  waL ≤ (parkRect waL waT waR waB).1 ∧
  waT ≤ (parkRect waL waT waR waB).2.1 ∧
  (parkRect waL waT waR waB).2.2.1 ≤ waR ∧
  (parkRect waL waT waR waB).2.2.2 ≤ waB

/-- Flag `SWP_NOZORDER` of SetWindowPos. -/
def SWP_NOZORDER : Nat := 0x0004

/-- Flag `SWP_NOACTIVATE` of SetWindowPos. -/
def SWP_NOACTIVATE : Nat := 0x0010

/-- Flag `SWP_FRAMECHANGED` of SetWindowPos. -/
def SWP_FRAMECHANGED : Nat := 0x0020

/-- The flag word every placement SetWindowPos call in the source passes:
`SWP_NOZORDER | SWP_NOACTIVATE | SWP_FRAMECHANGED`. -/
def SWP_PLACE_FLAGS : Nat := SWP_NOZORDER ||| SWP_NOACTIVATE ||| SWP_FRAMECHANGED

/-- A physical monitor: full rectangle and work-area rectangle. -/
structure Monitor : Type where
  full : Rect4
  work : Rect4
deriving Repr, DecidableEq

/-- The OS-side state of one top-level window for the placement model: the
current rectangle, the remembered normal (restored) placement, and whether
the window-manager state is maximized. -/
structure Win : Type where
  rect : Rect4
  normalPos : Rect4
  maximized : Bool
deriving Repr, DecidableEq

/-- Idealized desktop state the Placement Engine acts on.  `wins` maps
every handle to its window state (the engine is only invoked on live
windows); `zorder` and `focus` model the z-order and the activated window;
`sysWork` is the system-wide work area that `workarea_for_hmon` falls back
to when the per-monitor query fails (modelled as: the monitor handle is
not in the directory). -/
structure Sys : Type where
  wins : Nat → Win
  zorder : List Nat
  focus : Option Nat
  monitors : List Monitor
  sysWork : Rect4

/-- Embedding of `workarea_for_hmon(hmon)` with its degraded fallback. -/
def workarea_for_hmon (s : Sys) (hmon : Nat) : Rect4 :=
  match s.monitors.get? hmon with
  | some m => m.work
  | none => s.sysWork

/-- Replace the state of one window, leaving every other window alone. -/
def updateWin (s : Sys) (h : Nat) (f : Win → Win) : Sys :=
  { s with wins := fun h' => if h' = h then f (s.wins h') else s.wins h' }

/-- Embedding of `win32gui.SetWindowPos(hwnd, None, x, y, w, h, flags)`.
Moving/resizing puts the window into the normal state at the given
rectangle.  When `SWP_NOZORDER` is absent the window is raised to the top
of the z-order, and when `SWP_NOACTIVATE` is absent it is activated — so a
proof that placement leaves z-order and focus alone genuinely depends on
the flag word the source passes. -/
def SetWindowPos (s : Sys) (h : Nat) (x y w ht : Int) (flags : Nat) : Sys :=
  let s1 := updateWin s h (fun _ =>
    { rect := (x, y, x + w, y + ht), normalPos := (x, y, x + w, y + ht),
      maximized := false })
  let s2 := if flags &&& SWP_NOZORDER = 0
            then { s1 with zorder := h :: s1.zorder.erase h } else s1
  if flags &&& SWP_NOACTIVATE = 0 then { s2 with focus := some h } else s2

/-- The three ShowWindow commands the placement engine issues. -/
inductive ShowCmd : Type
  | restoreCmd
  | showNormalCmd
  | maximizeCmd
deriving Repr, DecidableEq

/-- Center point of a rectangle. -/
def rectCenter (r : Rect4) : Int × Int :=
  ((r.1 + r.2.2.1).fdiv 2, (r.2.1 + r.2.2.2).fdiv 2)

/-- Point-in-rectangle test. -/
def ptInRect (p : Int × Int) (r : Rect4) : Bool :=
  decide (r.1 ≤ p.1 ∧ p.1 < r.2.2.1 ∧ r.2.1 ≤ p.2 ∧ p.2 < r.2.2.2)

/-- The monitor a window currently occupies (MonitorFromWindow with
MONITOR_DEFAULTTONEAREST, approximated as: the first monitor whose full
rectangle contains the window's center, defaulting to monitor 0). -/
def monitorFromRect (mons : List Monitor) (r : Rect4) : Nat :=
  match mons.findIdx? (fun m => ptInRect (rectCenter r) m.full) with
  | some i => i
  | none => 0

/-- The rectangle a window assumes when the OS maximizes it: the work area
of the monitor it currently occupies. -/
def maximizedRect (s : Sys) (r : Rect4) : Rect4 :=
  match s.monitors.get? (monitorFromRect s.monitors r) with
  | some m => m.work
  | none => s.sysWork

/-- Activation of a window, as performed by the activating ShowWindow
commands: the window is raised to the top of the z-order and receives the
focus. -/
def activateWin (s : Sys) (h : Nat) : Sys :=
  { s with zorder := h :: s.zorder.erase h, focus := some h }

/-- Embedding of `win32gui.ShowWindow(hwnd, cmd)` for the three commands
the engine uses.  Restore/show-normal leaves a non-maximized window's
geometry untouched and returns a maximized one to its remembered normal
placement; maximize fills the work area of the window's current monitor.
All three commands (`SW_RESTORE`, `SW_SHOWNORMAL`, `SW_MAXIMIZE`) ACTIVATE
the window per the Win32 contract — the source never uses the
non-activating variants (`SW_SHOWNOACTIVATE`, `SW_SHOWNA`) — so each one
also raises the window and transfers focus to it. -/
def ShowWindow (s : Sys) (h : Nat) (cmd : ShowCmd) : Sys :=
  match cmd with
  | ShowCmd.restoreCmd =>
    activateWin (updateWin s h (fun w =>
      if w.maximized then
        { rect := w.normalPos, normalPos := w.normalPos, maximized := false }
      else w)) h
  | ShowCmd.showNormalCmd =>
    activateWin (updateWin s h (fun w =>
      if w.maximized then
        { rect := w.normalPos, normalPos := w.normalPos, maximized := false }
      else w)) h
  | ShowCmd.maximizeCmd =>
    activateWin (updateWin s h (fun w =>
      { rect := maximizedRect s w.rect, normalPos := w.normalPos,
        maximized := true })) h

/-- Embedding of `rect(hwnd)` for a live window. -/
def rectOf (s : Sys) (h : Nat) : Rect4 := (s.wins h).rect

/-- Embedding of `move_and_set(hwnd, hmon, mode)`: restore to normal,
then for `"maximize"`/`"workarea"` park at `parkRect` inside the target
work area and maximize / fill the work area; for `"normal"` move the
window (its current size clamped into the work area with a 40 px margin,
minimum 300×200) to a 20 px inset from the work-area origin.  The mode is
the raw string: any string other than `"normal"` and `"maximize"` takes
the `"workarea"` branch, as in the source's if/else chain. -/
def move_and_set (s : Sys) (hwnd : Nat) (hmon : Nat) (mode : String) : Sys :=
  let s1 := if (s.wins hwnd).maximized
            then ShowWindow s hwnd ShowCmd.restoreCmd
            else ShowWindow s hwnd ShowCmd.showNormalCmd
  let wa := workarea_for_hmon s1 hmon
  if mode = "normal" then
    let cur := rectOf s1 hwnd
    SetWindowPos s1 hwnd (wa.1 + 20) (wa.2.1 + 20)
      (max 300 (min (cur.2.2.1 - cur.1) ((wa.2.2.1 - wa.1) - 40)))
      (max 200 (min (cur.2.2.2 - cur.2.1) ((wa.2.2.2 - wa.2.1) - 40)))
      SWP_PLACE_FLAGS
  else
    let pk := parkRect wa.1 wa.2.1 wa.2.2.1 wa.2.2.2
    let s2 := SetWindowPos s1 hwnd pk.1 pk.2.1 (pk.2.2.1 - pk.1)
      (pk.2.2.2 - pk.2.1) SWP_PLACE_FLAGS
    if mode = "maximize" then ShowWindow s2 hwnd ShowCmd.maximizeCmd
    else SetWindowPos s2 hwnd wa.1 wa.2.1 (wa.2.2.1 - wa.1)
      (wa.2.2.2 - wa.2.1) SWP_PLACE_FLAGS

/-- Everything in the desktop state except the window `hwnd` itself is
unchanged between `s` and `s'`: z-order, focus, the monitor directory, the
system work area, and every other window's state. -/
def framePreserved (s s' : Sys) (hwnd : Nat) : Prop :=
  s'.zorder = s.zorder ∧ s'.focus = s.focus ∧ s'.monitors = s.monitors ∧
  s'.sysWork = s.sysWork ∧ ∀ h, h ≠ hwnd → s'.wins h = s.wins h

/-- Everything in the desktop state except the window `hwnd` itself, the
z-order and the focus is unchanged between `s` and `s'`: the monitor
directory, the system work area, and every other window's state. -/
def weakFramePreserved (s s' : Sys) (hwnd : Nat) : Prop :=
  s'.monitors = s.monitors ∧ s'.sysWork = s.sysWork ∧
  ∀ h, h ≠ hwnd → s'.wins h = s.wins h

/-- The error taxonomy of `run_headless`'s raise sites (the source raises
RuntimeError with distinct messages; the spec maps the monitor-range and
window-not-found cases to `InvalidArgument` and `WindowNotFoundError`). -/
inductive LopError : Type
  | noMonitors
  | monitorOutOfRange
  | launchFailed
  | inspectFailed
  | windowNotFound
deriving Repr, DecidableEq

/-- Observable actions of `run_headless`, in program order: the process
spawn, each acquisition attempt with the selection arguments and timeout
it passes, the initial placement, and the drift-watchdog invocation. -/
inductive LopEvent : Type
  | spawn
  | acquire (pid_set : Option (List Nat)) (exe_base : Option String)
      (timeoutSec : Nat)
  | place (monitorIndex : Nat) (mode : String)
  | watchdog (seconds : Int)
deriving Repr, DecidableEq

/-- Whether an event is a placement call. -/
def isPlace : LopEvent → Bool
  | LopEvent.place _ _ => true
  | _ => false

/-- Whether an event is the watchdog invocation. -/
def isWatchdog : LopEvent → Bool
  | LopEvent.watchdog _ => true
  | _ => false

/-- Environment of one `run_headless` run: the enumerated monitors,
whether the spawn and the psutil process inspection succeed, the
owned-process-id set the child-discovery loop accumulates (launched
process first), and the results the two `wait_for_stable_window` calls
produce from the OS's window traffic. -/
structure HeadlessEnv : Type where
  monitors : List Rect4
  launchOk : Bool
  inspectOk : Bool
  parentPid : Nat
  childPids : List Nat
  acqPrimary : Option Nat
  acqFallback : Option Nat
deriving Repr, DecidableEq

/-- Embedding of `os.path.basename(p)` for the paths at hand: the suffix
after the last path separator. -/
def os_basename (p : String) : String :=
  (p.split (fun c => c == '/' || c == '\\')).getLastD p

/-- Embedding of `run_headless(exe_path, monitor_index, mode,
observe_seconds)`: validate the monitor directory and index, spawn,
inspect, build the owned-pid set, run the primary acquisition attempt
(45 s, pid set + executable name + snapshot), on failure the relaxed
attempt (10 s, snapshot only), and raise when both fail; otherwise place
and watch.  Returns the outcome and the list of performed actions. -/
def run_headless (env : HeadlessEnv) (exePath : String) (monitorIndex : Int)
    (mode : String) (observeSeconds : Int) :
    Except LopError Unit × List LopEvent :=
  if env.monitors.length = 0 then (Except.error LopError.noMonitors, [])
  else if monitorIndex < 0 ∨ (env.monitors.length : Int) ≤ monitorIndex then
    (Except.error LopError.monitorOutOfRange, [])
  else if ¬ env.launchOk then (Except.error LopError.launchFailed, [])
  else if ¬ env.inspectOk then
    (Except.error LopError.inspectFailed, [LopEvent.spawn])
  else
    match env.acqPrimary with
    | some _ =>
      (Except.ok (),
       [LopEvent.spawn,
        LopEvent.acquire (some (env.parentPid :: env.childPids))
          (some ((os_basename exePath).toLower)) WAIT_TIMEOUT_SEC,
        LopEvent.place monitorIndex.toNat mode,
        LopEvent.watchdog observeSeconds])
    | none =>
      match env.acqFallback with
      | some _ =>
        (Except.ok (),
         [LopEvent.spawn,
          LopEvent.acquire (some (env.parentPid :: env.childPids))
            (some ((os_basename exePath).toLower)) WAIT_TIMEOUT_SEC,
          LopEvent.acquire none none 10,
          LopEvent.place monitorIndex.toNat mode,
          LopEvent.watchdog observeSeconds])
      | none =>
        (Except.error LopError.windowNotFound,
         [LopEvent.spawn,
          LopEvent.acquire (some (env.parentPid :: env.childPids))
            (some ((os_basename exePath).toLower)) WAIT_TIMEOUT_SEC,
          LopEvent.acquire none none 10])

/-- Embedding of the command-line path of `main()`: with `--exe` given,
exit 2 when the path is not a file or `--monitor` is missing, exit 1 when
`run_headless` raises, exit 0 on success; without `--exe` the GUI starts
(`none`). -/
def mainExit (env : HeadlessEnv) (exeArg : Option String) (exeIsFile : Bool)
    (monitorArg : Option Int) (mode : String) (observe : Int) : Option Nat :=
  match exeArg with
  | none => none
  | some exe =>
    if ¬ exeIsFile then some 2
    else
      match monitorArg with
      | none => some 2
      | some m =>
        match (run_headless env exe m mode observe).1 with
        | Except.ok _ => some 0
        | Except.error _ => some 1

/-- A concrete well-formed main window used for concrete evaluations: all
main-window style bits, no tool-window bit, 400×300, a live process. -/
def cexWindow : Window :=
  { hwnd := 42, visible := true, style := WS_OVERLAPPEDWINDOW, exStyle := 0,
    rect := some (0, 0, 400, 300), pid := some 5, procName := some "app.exe" }

/-- A concrete stability-path trace: the same candidate on three polls,
whose rectangle moves by 3 px between polls 1 and 2 and by another 4 px
between polls 2 and 3 (staying within 1 px of the poll-1 rectangle). -/
def acqTraceC3 : List AcqObs :=
  [{ cand := some 7, curRect := some (0, 0, 300, 300) },
   { cand := some 7, curRect := some (3, 3, 303, 303) },
   { cand := some 7, curRect := some (-1, -1, 299, 299) }]

/-- A concrete watchdog trace: the window stays on the target monitor and
drifts 2 px per poll, ending 4 px away from the watchdog-start rectangle
`(0, 0, 100, 100)`. -/
def driftPollsC4 : List DriftObs :=
  [{ alive := true, curHmon := 0, curRect := some (2, 2, 102, 102),
     afterRect := none },
   { alive := true, curHmon := 0, curRect := some (4, 4, 104, 104),
     afterRect := none }]

/-- A concrete single-monitor environment in which every OS interaction
succeeds and the primary acquisition attempt finds a window. -/
def envC6 : HeadlessEnv :=
  { monitors := [(0, 0, 1920, 1080)], launchOk := true, inspectOk := true,
    parentPid := 100, childPids := [101], acqPrimary := some 1,
    acqFallback := none }

/-- A concrete single-monitor environment in which both acquisition
attempts come back empty. -/
def envC7 : HeadlessEnv :=
  { monitors := [(0, 0, 1920, 1080)], launchOk := true, inspectOk := true,
    parentPid := 100, childPids := [101], acqPrimary := none,
    acqFallback := none }

/-- A concrete two-window desktop on one monitor, used to evaluate the
placement engine at a concrete input. -/
def sysC : Sys :=
  { wins := fun _ =>
      { rect := (0, 0, 640, 480), normalPos := (0, 0, 640, 480),
        maximized := false },
    zorder := [2, 1], focus := some 2,
    monitors := [{ full := (0, 0, 1920, 1080), work := (0, 0, 1920, 1040) }],
    sysWork := (0, 0, 1920, 1040) }

/-- Helper: a natural number formed by `|||` is zero iff both parts are. -/
theorem nat_or_eq_zero_iff (x y : Nat) : x ||| y = 0 ↔ x = 0 ∧ y = 0 := by
  constructor
  · intro h
    constructor
    · apply Nat.eq_of_testBit_eq
      intro i
      have hb := congrArg (fun n => Nat.testBit n i) h
      simp only [Nat.testBit_or, Nat.zero_testBit, Bool.or_eq_false_iff] at hb
      simpa using hb.1
    · apply Nat.eq_of_testBit_eq
      intro i
      have hb := congrArg (fun n => Nat.testBit n i) h
      simp only [Nat.testBit_or, Nat.zero_testBit, Bool.or_eq_false_iff] at hb
      simpa using hb.2
  · rintro ⟨hx, hy⟩
    simp [hx, hy]

/-- C2 counterexample: a window whose style word carries ONLY the
maximize-box bit (caption, system menu, thick frame, minimize box all
absent) still passes `is_main_style`, because the source tests the masked
style word for being nonzero rather than for containing every mask bit.
The claim says such a window is rejected. -/
theorem c2_counterexample :
    is_main_style
      { hwnd := 1, visible := true, style := WS_MAXIMIZEBOX, exStyle := 0,
        rect := some (0, 0, 400, 300), pid := some 7,
        procName := some "app.exe" } = true ∧
    WS_MAXIMIZEBOX &&& WS_CAPTION = 0 ∧
    WS_MAXIMIZEBOX &&& WS_SYSMENU = 0 ∧
    WS_MAXIMIZEBOX &&& WS_THICKFRAME = 0 ∧
    WS_MAXIMIZEBOX &&& WS_MINIMIZEBOX = 0 := by
  refine ⟨?_, by decide, by decide, by decide, by decide⟩
  decide

/-- C2 (amended): a window passes the style filter iff its style word
possesses AT LEAST ONE of the caption / system-menu / thick-frame /
minimize-box / maximize-box style bits (the overlapped "bit" is zero and
imposes no constraint) and its extended style word lacks the tool-window
bit; possessing all the bits is not required. -/
theorem c2_is_main_style_amended (w : Window) :
    is_main_style w = true ↔
      ((w.style &&& WS_CAPTION ≠ 0 ∨ w.style &&& WS_SYSMENU ≠ 0 ∨
        w.style &&& WS_THICKFRAME ≠ 0 ∨ w.style &&& WS_MINIMIZEBOX ≠ 0 ∨
        w.style &&& WS_MAXIMIZEBOX ≠ 0) ∧
       w.exStyle &&& WS_EX_TOOLWINDOW = 0) := by
  have hmask : w.style &&& WS_OVERLAPPEDWINDOW =
      ((((w.style &&& WS_CAPTION) ||| (w.style &&& WS_SYSMENU)) |||
        (w.style &&& WS_THICKFRAME)) ||| (w.style &&& WS_MINIMIZEBOX)) |||
        (w.style &&& WS_MAXIMIZEBOX) := by
    show w.style &&& (WS_OVERLAPPED ||| WS_CAPTION ||| WS_SYSMENU |||
      WS_THICKFRAME ||| WS_MINIMIZEBOX ||| WS_MAXIMIZEBOX) = _
    simp only [Nat.and_or_distrib_left]
    simp [WS_OVERLAPPED]
  constructor
  · intro h
    simp only [is_main_style, Bool.and_eq_true, Bool.not_eq_true',
      decide_eq_true_eq, decide_eq_false_iff_not, Decidable.not_not] at h
    obtain ⟨h1, h2⟩ := h
    refine ⟨?_, h2⟩
    rw [hmask] at h1
    by_contra hc
    push_neg at hc
    obtain ⟨hc1, hc2, hc3, hc4, hc5⟩ := hc
    simp [hc1, hc2, hc3, hc4, hc5] at h1
  · rintro ⟨h1, h2⟩
    simp only [is_main_style, Bool.and_eq_true, Bool.not_eq_true',
      decide_eq_true_eq, decide_eq_false_iff_not, Decidable.not_not]
    refine ⟨?_, h2⟩
    rw [hmask]
    intro hz
    rw [nat_or_eq_zero_iff] at hz
    obtain ⟨hz1, h5⟩ := hz
    rw [nat_or_eq_zero_iff] at hz1
    obtain ⟨hz2, h4⟩ := hz1
    rw [nat_or_eq_zero_iff] at hz2
    obtain ⟨hz3, h3⟩ := hz2
    rw [nat_or_eq_zero_iff] at hz3
    obtain ⟨hcap, hsys⟩ := hz3
    rcases h1 with h | h | h | h | h <;> contradiction

/-- Helper: no candidate beats itself in the `(score, area)` order. -/
theorem beats_irrefl (b : Nat × Int × Nat) : beats b b = false := by
  simp [beats]

/-- Helper: the strict `(score, area)` order composes with its negation. -/
theorem beats_false_trans {a b c : Nat × Int × Nat}
    (h1 : beats a b = false) (h2 : beats c a = false) : beats c b = false := by
  simp only [beats, decide_eq_false_iff_not] at h1 h2 ⊢
  push_neg at h1 h2 ⊢
  omega

/-- Helper: a candidate beaten by `b` cannot beat anything `b` fails to
beat. -/
theorem beats_true_false {a b c : Nat × Int × Nat}
    (h1 : beats a b = true) (h2 : beats c b = false) : beats c a = false := by
  simp only [beats, decide_eq_true_eq, decide_eq_false_iff_not] at h1 h2 ⊢
  push_neg at h2 ⊢
  omega

/-- Helper: folding `pickStep` yields an element of the candidate list
that no listed candidate beats. -/
theorem foldl_pickStep_spec (cs : List (Nat × Int × Nat)) :
    ∀ a : Nat × Int × Nat,
    (List.foldl pickStep a cs = a ∨ List.foldl pickStep a cs ∈ cs) ∧
    ∀ y, (y = a ∨ y ∈ cs) → beats (List.foldl pickStep a cs) y = false := by
  induction cs with
  | nil =>
    intro a
    refine ⟨Or.inl rfl, ?_⟩
    rintro y (rfl | hy)
    · exact beats_irrefl y
    · simp at hy
  | cons x cs' ih =>
    intro a
    obtain ⟨ihmem, ihmax⟩ := ih (pickStep a x)
    simp only [List.foldl_cons]
    have hx_or : pickStep a x = x ∨ pickStep a x = a := by
      unfold pickStep
      by_cases hb : beats a x = true
      · simp [hb]
      · simp [hb]
    constructor
    · rcases ihmem with h | h
      · rw [h]
        rcases hx_or with h2 | h2
        · right
          rw [h2]
          exact List.mem_cons_self x cs'
        · left
          exact h2
      · right
        exact List.mem_cons_of_mem x h
    · intro y hy0
      rcases hy0 with hya | hy
      · subst hya
        by_cases hb : beats y x = true
        · have hpx : pickStep y x = x := by unfold pickStep; simp [hb]
          have hrx : beats (List.foldl pickStep (pickStep y x) cs') x = false :=
            ihmax x (Or.inl hpx.symm)
          exact beats_true_false hb hrx
        · have hpa : pickStep y x = y := by unfold pickStep; simp [hb]
          exact ihmax y (Or.inl hpa.symm)
      · rcases List.mem_cons.mp hy with hyx | hy'
        · subst hyx
          by_cases hb : beats a y = true
          · have hpx : pickStep a y = y := by unfold pickStep; simp [hb]
            exact ihmax y (Or.inl hpx.symm)
          · have hpa : pickStep a y = a := by unfold pickStep; simp [hb]
            have hra : beats (List.foldl pickStep (pickStep a y) cs') a = false :=
              ihmax a (Or.inl hpa.symm)
            have hax : beats a y = false := by
              simpa using hb
            exact beats_false_trans hax hra
        · exact ihmax y (Or.inr hy')

/-- Helper: the candidate list is empty exactly when every filtered
window scores zero. -/
theorem scan_candidates_eq_nil_iff (ps : Option (List Nat))
    (es : Option String) (ss : Option (List Nat)) (ws : List Window) :
    scan_candidates ps es ss ws = [] ↔
      ∀ w ∈ ws, passes_filter w = true → candScore ps es ss w = 0 := by
  unfold scan_candidates
  rw [List.filterMap_eq_nil_iff]
  constructor
  · intro h w hw hpf
    have hw' := h w hw
    simp only [hpf, if_true] at hw'
    by_cases hsc : 0 < candScore ps es ss w
    · simp [hsc] at hw'
    · omega
  · intro h w hw
    by_cases hpf : passes_filter w = true
    · have := h w hw hpf
      simp [hpf, this]
    · simp only [Bool.not_eq_true] at hpf
      simp [hpf]

/-- Helper: membership in the candidate list. -/
theorem mem_scan_candidates {ps : Option (List Nat)} {es : Option String}
    {ss : Option (List Nat)} {ws : List Window} {c : Nat × Int × Nat} :
    c ∈ scan_candidates ps es ss ws ↔
      ∃ w ∈ ws, passes_filter w = true ∧ 0 < candScore ps es ss w ∧
        c = (candScore ps es ss w, winArea w, w.hwnd) := by
  unfold scan_candidates
  rw [List.mem_filterMap]
  constructor
  · rintro ⟨w, hw, hfw⟩
    by_cases hpf : passes_filter w = true
    · by_cases hsc : 0 < candScore ps es ss w
      · simp only [hpf, if_true, hsc, if_pos] at hfw
        exact ⟨w, hw, hpf, hsc, (Option.some_inj.mp hfw).symm⟩
      · simp [hpf, hsc] at hfw
    · simp only [Bool.not_eq_true] at hpf
      simp [hpf] at hfw
  · rintro ⟨w, hw, hpf, hsc, rfl⟩
    exact ⟨w, hw, by simp [hpf, hsc]⟩

/-- C1 counterexample: with an EMPTY pre-launch snapshot, a visible,
main-style, sufficiently large window whose handle is (vacuously) absent
from the snapshot is NOT returned: the scanner yields nothing, because the
Python condition `since_handles and hwnd not in since_handles` withholds
the +200 novelty bonus whenever the snapshot is empty, so the candidate's
score stays 0.  The claim's scoring (+200 for absence from the snapshot)
would make this candidate's score positive and require it to be
returned. -/
theorem c1_counterexample :
    pick_best_window_by none none (some []) [cexWindow] = none ∧
    passes_filter cexWindow = true ∧
    cexWindow.hwnd ∉ ([] : List Nat) := by
  refine ⟨by decide, by decide, by simp⟩

/-- C1 (amended): with the three bonuses guarded by Python truthiness of
the corresponding argument (+1000 only when a non-empty owned-pid set is
supplied and contains the window's pid, +500 only when a non-empty
expected name is supplied and equals the window's lower-cased executable
name, +200 only when a NON-EMPTY pre-launch snapshot is supplied and lacks
the handle), the scanner returns none exactly when no filtered candidate
scores above zero, and otherwise returns a filtered candidate of positive
score that no other filtered positive-score candidate exceeds in score,
nor matches in score with a strictly larger area. -/
theorem c1_scanner_amended (pid_set : Option (List Nat))
    (exe_base : Option String) (since_handles : Option (List Nat))
    (ws : List Window) :
    (pick_best_window_by pid_set exe_base since_handles ws = none ↔
       ∀ w ∈ ws, passes_filter w = true →
         candScore pid_set exe_base since_handles w = 0) ∧
    (∀ h, pick_best_window_by pid_set exe_base since_handles ws = some h →
       ∃ w ∈ ws, passes_filter w = true ∧ w.hwnd = h ∧
         0 < candScore pid_set exe_base since_handles w ∧
         ∀ w' ∈ ws, passes_filter w' = true →
           0 < candScore pid_set exe_base since_handles w' →
           (candScore pid_set exe_base since_handles w' <
              candScore pid_set exe_base since_handles w ∨
            (candScore pid_set exe_base since_handles w' =
               candScore pid_set exe_base since_handles w ∧
             winArea w' ≤ winArea w))) := by
  constructor
  · rw [← scan_candidates_eq_nil_iff pid_set exe_base since_handles ws]
    unfold pick_best_window_by
    rcases hscan : scan_candidates pid_set exe_base since_handles ws with _ | ⟨c, cs⟩
    · simp
    · simp
  · intro h hpick
    unfold pick_best_window_by at hpick
    rcases hscan : scan_candidates pid_set exe_base since_handles ws with _ | ⟨c, cs⟩
    · rw [hscan] at hpick
      simp at hpick
    · rw [hscan] at hpick
      simp only [Option.some_inj] at hpick
      obtain ⟨hmem, hmax⟩ := foldl_pickStep_spec cs c
      have hrmem : List.foldl pickStep c cs ∈
          scan_candidates pid_set exe_base since_handles ws := by
        rw [hscan]
        rcases hmem with h1 | h1
        · rw [h1]
          exact List.mem_cons_self c cs
        · exact List.mem_cons_of_mem c h1
      obtain ⟨w, hw, hpf, hsc, heq⟩ := mem_scan_candidates.mp hrmem
      refine ⟨w, hw, hpf, ?_, hsc, ?_⟩
      · rw [← hpick, heq]
      · intro w' hw' hpf' hsc'
        have hmem' : (candScore pid_set exe_base since_handles w', winArea w',
            w'.hwnd) ∈ scan_candidates pid_set exe_base since_handles ws :=
          mem_scan_candidates.mpr ⟨w', hw', hpf', hsc', rfl⟩
        rw [hscan] at hmem'
        have hb := hmax (candScore pid_set exe_base since_handles w', winArea w',
            w'.hwnd) (by
          rcases List.mem_cons.mp hmem' with h1 | h1
          · exact Or.inl h1
          · exact Or.inr h1)
        rw [heq] at hb
        simp only [beats, decide_eq_false_iff_not] at hb
        push_neg at hb
        omega

/-- C1 witness: the amended theorem applied to a concrete scan in which
the pid set matches (+1000), the name matches (+500) and the window is
novel (+200): the single filtered candidate (score 1700) is returned and
is maximal. -/
theorem c1_witness :
    ∃ w ∈ [cexWindow], passes_filter w = true ∧ w.hwnd = 42 ∧
      0 < candScore (some [5]) (some "app.exe") (some [9]) w ∧
      ∀ w' ∈ [cexWindow], passes_filter w' = true →
        0 < candScore (some [5]) (some "app.exe") (some [9]) w' →
        (candScore (some [5]) (some "app.exe") (some [9]) w' <
           candScore (some [5]) (some "app.exe") (some [9]) w ∨
         (candScore (some [5]) (some "app.exe") (some [9]) w' =
            candScore (some [5]) (some "app.exe") (some [9]) w ∧
          winArea w' ≤ winArea w)) :=
  (c1_scanner_amended (some [5]) (some "app.exe") (some [9]) [cexWindow]).2
    42 (by decide)

/-- C10: with an empty pre-launch snapshot and no pid set / executable
name — the arguments of the relaxed fallback attempt when no window was
visible before launch — every window scores zero, so the scanner returns
none for every window list, and hence the early-detect acquisition loop
returns none over any sequence of polls: the fallback attempt can never
succeed. -/
theorem c10_relaxed_attempt_empty_snapshot (ws : List Window)
    (polls : List (List Window)) :
    pick_best_window_by none none (some []) ws = none ∧
    wait_for_stable_window EARLY_MOVE_ON_DETECT
      (polls.map (fun vs =>
        { cand := pick_best_window_by none none (some []) vs,
          curRect := none })) = none := by
  have hscore : ∀ (vs : List Window) (w : Window),
      candScore none none (some []) w = 0 := by
    intro vs w
    simp [candScore, pidHit, nameHit, newHit, List.isEmpty]
  have hnone : ∀ vs : List Window,
      pick_best_window_by none none (some []) vs = none := by
    intro vs
    unfold pick_best_window_by
    have : scan_candidates none none (some []) vs = [] := by
      rw [scan_candidates_eq_nil_iff]
      intro w hw hpf
      exact hscore vs w
    rw [this]
  refine ⟨hnone ws, ?_⟩
  unfold wait_for_stable_window
  rw [if_pos (show EARLY_MOVE_ON_DETECT = true from rfl)]
  induction polls with
  | nil => rfl
  | cons vs rest ih =>
    simp only [List.map_cons]
    unfold waitEarly
    rw [hnone vs]
    exact ih

/-- Helper: a poll without a candidate leaves the stability loop alone. -/
theorem waitStable_cons_none {s : AcqState} {o : AcqObs} {rest : List AcqObs}
    (h : o.cand = none) : waitStable s (o :: rest) = waitStable s rest := by
  conv_lhs => unfold waitStable
  rw [h]

/-- Helper: unfolding one candidate-bearing poll of the stability loop. -/
theorem waitStable_cons_some {s : AcqState} {o : AcqObs} {rest : List AcqObs}
    {c : Nat} (h : o.cand = some c) :
    waitStable s (o :: rest) =
      if STABLE_MS_BEFORE_MOVE ≤ (stablePoll s c o.curRect).stableMs
      then (stablePoll s c o.curRect).hwnd
      else waitStable (stablePoll s c o.curRect) rest := by
  conv_lhs => unfold waitStable
  rw [h]

/-- Helper: a poll without a candidate contributes no state. -/
theorem stableStates_cons_none {s : AcqState} {o : AcqObs}
    {rest : List AcqObs} (h : o.cand = none) :
    stableStates s (o :: rest) = stableStates s rest := by
  conv_lhs => unfold stableStates
  rw [h]

/-- Helper: a candidate-bearing poll contributes its post-poll state. -/
theorem stableStates_cons_some {s : AcqState} {o : AcqObs}
    {rest : List AcqObs} {c : Nat} (h : o.cand = some c) :
    stableStates s (o :: rest) =
      stablePoll s c o.curRect ::
        stableStates (stablePoll s c o.curRect) rest := by
  conv_lhs => unfold stableStates
  rw [h]

/-- C3 counterexample: on the concrete trace the rectangle moves 4 px
between the second and third polls — more than the 3 px tolerance since
the PREVIOUS poll, so the claim requires the stable counter to be reset to
zero at the third poll.  The source instead compares against the rectangle
recorded when the counter was last reset (the first poll's rectangle,
within 1 px), and the counter climbs 0 → 50 → 100 ms. -/
theorem c3_counterexample :
    (stableStates { hwnd := none, lastRect := none, stableMs := 0 }
        acqTraceC3).map (fun st => st.stableMs) = [0, 50, 100] ∧
    rect_changed (some (-1, -1, 299, 299)) (some (3, 3, 303, 303)) = true := by
  exact ⟨by decide, by decide⟩

/-- C3 (amended): under the stability policy the stable counter is reset
to zero exactly when there is no recorded rectangle yet, the selected
handle changes, or the selected window's rectangle moved beyond the 3 px
tolerance RELATIVE TO THE RECTANGLE RECORDED AT THE LAST RESET (not the
previous poll); and the loop returns the handle of the first state whose
accumulated stable duration reaches 400 ms, or none when no state within
the poll budget (the overall timeout) does. -/
theorem c3_stability_policy_amended (s : AcqState) (c : Nat)
    (cur : Option Rect4) (trace : List AcqObs) :
    ((stablePoll s c cur).stableMs = 0 ↔
       (s.lastRect = none ∨ s.hwnd ≠ some c ∨
        rect_changed cur s.lastRect = true)) ∧
    waitStable s trace =
      ((stableStates s trace).find?
          (fun st => decide (STABLE_MS_BEFORE_MOVE ≤ st.stableMs))).bind
        (fun st => st.hwnd) := by
  constructor
  · unfold stablePoll
    by_cases hcond : s.lastRect = none ∨ s.hwnd ≠ some c ∨
        rect_changed cur s.lastRect = true
    · simp only [if_pos hcond]
      simpa using hcond
    · simp only [if_neg hcond]
      simp only [POLL_INTERVAL_MS]
      constructor
      · intro h
        omega
      · intro h
        exact absurd h hcond
  · induction trace generalizing s with
    | nil => rfl
    | cons o rest ih =>
      rcases hc : o.cand with _ | c'
      · rw [waitStable_cons_none hc, stableStates_cons_none hc]
        exact ih s
      · rw [waitStable_cons_some hc, stableStates_cons_some hc]
        by_cases hth : STABLE_MS_BEFORE_MOVE ≤ (stablePoll s c' o.curRect).stableMs
        · rw [if_pos hth, List.find?_cons_of_pos _ (by simpa using hth)]
          rfl
        · rw [if_neg hth, List.find?_cons_of_neg _ (by simpa using hth)]
          exact ih (stablePoll s c' o.curRect)

/-- C4 counterexample: the watchdog starts with last-applied rectangle
`(0, 0, 100, 100)` and the window then drifts 2 px per poll on the target
monitor.  At the second poll the current rectangle `(4, 4, 104, 104)`
differs from the last-applied rectangle by 4 px on every edge — beyond the
3 px tolerance, so the claim requires placement to be re-applied — yet the
source never re-applies, because it compares against the PREVIOUS poll's
rectangle `(2, 2, 102, 102)` (the baseline is overwritten on every poll,
not only when placement is re-applied). -/
theorem c4_counterexample :
    ensure_on_target 0 (some (0, 0, 100, 100)) driftPollsC4 = [false, false] ∧
    rect_changed (some (4, 4, 104, 104)) (some (0, 0, 100, 100)) = true := by
  exact ⟨by decide, by decide⟩

/-- C4 (amended): while the window is valid and visible, placement is
re-applied exactly when the monitor containing the window differs from the
target or the current rectangle differs beyond the 3 px tolerance from the
rectangle observed at the PREVIOUS poll (the post-placement rectangle on
polls that re-applied; the watchdog-start rectangle on the first poll);
the baseline is overwritten on EVERY poll, so a window drifting at most
3 px per poll on the target monitor is never re-placed regardless of how
far it moves from the last-applied rectangle in total. -/
theorem c4_drift_watchdog_amended (target : Nat) (last0 : Option Rect4)
    (polls : List DriftObs) :
    (∀ (o : DriftObs) (rest : List DriftObs), o.alive = true →
       (ensure_on_target target last0 (o :: rest)).head? =
         some (decide (o.curHmon ≠ target) || rect_changed o.curRect last0)) ∧
    (slowDrift target last0 polls = true →
       ensure_on_target target last0 polls =
         List.replicate polls.length false) := by
  constructor
  · intro o rest halive
    conv_lhs => unfold ensure_on_target
    rw [if_pos halive]
    rfl
  · induction polls generalizing last0 with
    | nil =>
      intro _
      rfl
    | cons o rest ih =>
      intro h
      unfold slowDrift at h
      simp only [Bool.and_eq_true, Bool.not_eq_true', decide_eq_true_eq] at h
      obtain ⟨⟨⟨h1, h2⟩, h3⟩, h4⟩ := h
      conv_lhs => unfold ensure_on_target
      rw [if_pos h1]
      have hcond : (decide (o.curHmon ≠ target) ||
          rect_changed o.curRect last0) = false := by
        simp [h2, h3]
      rw [hcond]
      simp only [Bool.false_eq_true, if_false]
      rw [List.length_cons, List.replicate_succ]
      exact congrArg (List.cons false) (ih o.curRect h4)

/-- C4 witness: the amended theorem applied to the concrete slow-drift
trace — the window stays on monitor 0 and moves 2 px per poll, and no
placement is ever re-applied. -/
theorem c4_witness :
    slowDrift 0 (some (0, 0, 100, 100)) driftPollsC4 = true ∧
    ensure_on_target 0 (some (0, 0, 100, 100)) driftPollsC4 =
      List.replicate driftPollsC4.length false := by
  refine ⟨by decide, ?_⟩
  exact (c4_drift_watchdog_amended 0 (some (0, 0, 100, 100))
    driftPollsC4).2 (by decide)

/-- C5 counterexample: for a 500×400 work area at the origin the park
rectangle is `(20, 20, 820, 620)` — width and height are clamped UP to the
800×600 minima and the 20 px offsets are kept, so the rectangle's right
edge (820) and bottom edge (620) lie outside the work area: the park
rectangle is NOT fully inside the target monitor's work area. -/
theorem c5_counterexample :
    parkRect 0 0 500 400 = (20, 20, 820, 620) ∧ ¬ ((820 : Int) ≤ 500) := by
  exact ⟨by decide, by decide⟩

/-- C5 (amended): the park rectangle's width is always clamped to
800–1200 px and its height to 600–900 px, and it lies fully inside the
target monitor's work area provided the work area is at least 820 px wide
and 620 px tall (small work areas are overflowed to the right/bottom,
since the 800×600 minimum size wins over containment). -/
theorem c5_park_amended (waL waT waR waB : Int)
    (hw : 820 ≤ waR - waL) (hh : 620 ≤ waB - waT) :
    park_inside waL waT waR waB := by
  have e2 : ∀ a : Int, a.fdiv 2 = a / 2 := fun a =>
    Int.fdiv_eq_ediv a (by norm_num)
  have e3 : ∀ a : Int, a.fdiv 3 = a / 3 := fun a =>
    Int.fdiv_eq_ediv a (by norm_num)
  unfold park_inside parkRect
  simp only [e2, e3]
  omega

/-- C5 witness: the amended theorem applied to a 1920×1080 work area. -/
theorem c5_witness :
    (820 : Int) ≤ 1920 - 0 ∧ (620 : Int) ≤ 1080 - 0 ∧
    park_inside 0 0 1920 1080 := by
  exact ⟨by decide, by decide, c5_park_amended 0 0 1920 1080 (by decide)
    (by decide)⟩

/-- C6 counterexample: a CLI invocation with an existing executable and
monitor index 1 against a single-monitor directory fails with the
out-of-range-monitor error (an invalid argument per the spec's taxonomy),
yet exits with code 1, not 2: `main` catches the RuntimeError from
`run_headless` in its generic handler.  Exit code 2 is reserved for a
nonexistent `--exe` path or a missing `--monitor` argument. -/
theorem c6_counterexample :
    (run_headless envC6 "C:\\app.exe" 1 "maximize" 4).1 =
      Except.error LopError.monitorOutOfRange ∧
    mainExit envC6 (some "C:\\app.exe") true (some 1) "maximize" 4 =
      some 1 := by
  exact ⟨rfl, rfl⟩

/-- C6 (amended): with at least one monitor enumerated, a monitor index
that is negative or not below the monitor count makes `run_headless` fail
with the out-of-range-monitor error before anything else happens — the
returned action list is empty, so in particular no process is spawned —
but a command-line invocation hitting this failure exits with code 1 (the
generic runtime-failure code); exit code 2 occurs only for a nonexistent
executable path (or a missing monitor argument). -/
theorem c6_monitor_range_amended (env : HeadlessEnv) (exe : String)
    (m : Int) (mode : String) (obs : Int) (exeIsFile : Bool)
    (hmons : env.monitors ≠ [])
    (hrange : m < 0 ∨ (env.monitors.length : Int) ≤ m) :
    run_headless env exe m mode obs =
      (Except.error LopError.monitorOutOfRange, []) ∧
    LopEvent.spawn ∉ (run_headless env exe m mode obs).2 ∧
    mainExit env (some exe) exeIsFile (some m) mode obs =
      (if exeIsFile then some 1 else some 2) := by
  have hlen : ¬ env.monitors.length = 0 := by
    simpa [List.length_eq_zero] using hmons
  have hrh : run_headless env exe m mode obs =
      (Except.error LopError.monitorOutOfRange, []) := by
    unfold run_headless
    rw [if_neg hlen, if_pos hrange]
  refine ⟨hrh, ?_, ?_⟩
  · rw [hrh]
    simp
  · cases exeIsFile
    · simp [mainExit]
    · simp [mainExit, hrh]

/-- C6 witness: the amended theorem applied to the concrete single-monitor
environment and monitor index 1. -/
theorem c6_witness :
    envC6.monitors ≠ [] ∧
    ((1 : Int) < 0 ∨ (envC6.monitors.length : Int) ≤ 1) ∧
    run_headless envC6 "C:\\app.exe" 1 "maximize" 4 =
      (Except.error LopError.monitorOutOfRange, []) := by
  refine ⟨by decide, by decide, ?_⟩
  exact (c6_monitor_range_amended envC6 "C:\\app.exe" 1 "maximize" 4 true
    (by decide) (by decide)).1

/-- C7: whenever the primary acquisition attempt (owned-pid set plus
executable name, 45 s timeout) comes back empty on a run that got as far
as acquisition, the run performs a second attempt with a 10 s timeout
passing NO pid set and NO executable name (novelty signal only), fails
with the window-not-found error exactly when that fallback also comes back
empty, and in that case performs no placement and no watchdog call. -/
theorem c7_fallback_attempt (env : HeadlessEnv) (exe : String) (m : Int)
    (mode : String) (obs : Int)
    (hmons : env.monitors ≠ [])
    (hm0 : 0 ≤ m) (hm1 : m < (env.monitors.length : Int))
    (hlaunch : env.launchOk = true) (hinspect : env.inspectOk = true)
    (hprimary : env.acqPrimary = none) :
    LopEvent.acquire (some (env.parentPid :: env.childPids))
        (some ((os_basename exe).toLower)) WAIT_TIMEOUT_SEC ∈
      (run_headless env exe m mode obs).2 ∧
    LopEvent.acquire none none 10 ∈ (run_headless env exe m mode obs).2 ∧
    ((run_headless env exe m mode obs).1 =
        Except.error LopError.windowNotFound ↔ env.acqFallback = none) ∧
    (env.acqFallback = none →
       (run_headless env exe m mode obs).2.all
         (fun e => !(isPlace e || isWatchdog e)) = true) := by
  have hlen : ¬ env.monitors.length = 0 := by
    simpa [List.length_eq_zero] using hmons
  have hrange : ¬ (m < 0 ∨ (env.monitors.length : Int) ≤ m) := by
    push_neg
    exact ⟨hm0, hm1⟩
  have hrw : run_headless env exe m mode obs =
      match env.acqFallback with
      | some _ =>
        (Except.ok (),
         [LopEvent.spawn,
          LopEvent.acquire (some (env.parentPid :: env.childPids))
            (some ((os_basename exe).toLower)) WAIT_TIMEOUT_SEC,
          LopEvent.acquire none none 10,
          LopEvent.place m.toNat mode,
          LopEvent.watchdog obs])
      | none =>
        (Except.error LopError.windowNotFound,
         [LopEvent.spawn,
          LopEvent.acquire (some (env.parentPid :: env.childPids))
            (some ((os_basename exe).toLower)) WAIT_TIMEOUT_SEC,
          LopEvent.acquire none none 10]) := by
    unfold run_headless
    rw [if_neg hlen, if_neg hrange, if_neg (by simp [hlaunch]),
      if_neg (by simp [hinspect]), hprimary]
  rcases hfb : env.acqFallback with _ | h
  · rw [hfb] at hrw
    rw [hrw]
    refine ⟨by simp, by simp, by simp, ?_⟩
    intro _
    simp [isPlace, isWatchdog, List.all]
  · rw [hfb] at hrw
    rw [hrw]
    refine ⟨by simp, by simp, by simp, ?_⟩
    intro hc
    simp at hc

/-- C7 witness: the theorem applied to the concrete environment in which
both attempts fail: the fallback acquire call with no pid set and no
executable name is performed and the run ends in the window-not-found
error with no placement or watchdog action. -/
theorem c7_witness :
    envC7.monitors ≠ [] ∧ (0 : Int) ≤ 0 ∧
    (0 : Int) < (envC7.monitors.length : Int) ∧
    envC7.launchOk = true ∧ envC7.inspectOk = true ∧
    envC7.acqPrimary = none ∧
    (LopEvent.acquire none none 10 ∈
       (run_headless envC7 "C:\\game.exe" 0 "workarea" 4).2 ∧
     ((run_headless envC7 "C:\\game.exe" 0 "workarea" 4).1 =
         Except.error LopError.windowNotFound ↔
       envC7.acqFallback = none)) := by
  refine ⟨by decide, by decide, by decide, rfl, rfl, rfl, ?_, ?_⟩
  · exact (c7_fallback_attempt envC7 "C:\\game.exe" 0 "workarea" 4
      (by decide) (by decide) (by decide) rfl rfl rfl).2.1
  · exact (c7_fallback_attempt envC7 "C:\\game.exe" 0 "workarea" 4
      (by decide) (by decide) (by decide) rfl rfl rfl).2.2.1

/-- Helper: the placement flag word contains `SWP_NOZORDER`. -/
theorem place_flags_nozorder : ¬ SWP_PLACE_FLAGS &&& SWP_NOZORDER = 0 := by
  decide

/-- Helper: the placement flag word contains `SWP_NOACTIVATE`. -/
theorem place_flags_noactivate : ¬ SWP_PLACE_FLAGS &&& SWP_NOACTIVATE = 0 := by
  decide

/-- Helper: with the source's flag word, SetWindowPos reduces to a pure
window update (no z-order move, no activation). -/
theorem SetWindowPos_place_eq (s : Sys) (h : Nat) (x y w ht : Int) :
    SetWindowPos s h x y w ht SWP_PLACE_FLAGS =
      { s with wins := fun h' => if h' = h then
          { rect := (x, y, x + w, y + ht),
            normalPos := (x, y, x + w, y + ht), maximized := false }
        else s.wins h' } := by
  simp only [SetWindowPos, updateWin]
  rw [if_neg place_flags_nozorder, if_neg place_flags_noactivate]

/-- Helper: the window state written by a placement SetWindowPos. -/
theorem SetWindowPos_place_wins_self (s : Sys) (h : Nat) (x y w ht : Int) :
    (SetWindowPos s h x y w ht SWP_PLACE_FLAGS).wins h =
      { rect := (x, y, x + w, y + ht), normalPos := (x, y, x + w, y + ht),
        maximized := false } := by
  rw [SetWindowPos_place_eq]
  simp

/-- Helper: a placement SetWindowPos touches nothing but its window. -/
theorem SetWindowPos_place_frame (s : Sys) (h : Nat) (x y w ht : Int) :
    framePreserved s (SetWindowPos s h x y w ht SWP_PLACE_FLAGS) h := by
  rw [SetWindowPos_place_eq]
  refine ⟨rfl, rfl, rfl, rfl, ?_⟩
  intro h' hne
  simp [hne]

/-- Helper: ShowWindow leaves the monitor directory unchanged. -/
theorem ShowWindow_monitors (s : Sys) (h : Nat) (cmd : ShowCmd) :
    (ShowWindow s h cmd).monitors = s.monitors := by
  cases cmd <;> rfl

/-- Helper: ShowWindow leaves the fallback work area unchanged. -/
theorem ShowWindow_sysWork (s : Sys) (h : Nat) (cmd : ShowCmd) :
    (ShowWindow s h cmd).sysWork = s.sysWork := by
  cases cmd <;> rfl

/-- Helper: ShowWindow leaves every other window's state unchanged. -/
theorem ShowWindow_wins_other (s : Sys) (h : Nat) (cmd : ShowCmd)
    {h' : Nat} (hne : h' ≠ h) :
    (ShowWindow s h cmd).wins h' = s.wins h' := by
  cases cmd <;> simp [ShowWindow, activateWin, updateWin, hne]

/-- Helper: every ShowWindow command the engine uses activates: it raises
its window to the top of the z-order. -/
theorem ShowWindow_zorder (s : Sys) (h : Nat) (cmd : ShowCmd) :
    (ShowWindow s h cmd).zorder = h :: s.zorder.erase h := by
  cases cmd <;> rfl

/-- Helper: every ShowWindow command the engine uses activates: it
transfers the focus to its window. -/
theorem ShowWindow_focus (s : Sys) (h : Nat) (cmd : ShowCmd) :
    (ShowWindow s h cmd).focus = some h := by
  cases cmd <;> rfl

/-- Helper: ShowWindow changes nothing outside its window, the z-order
and the focus. -/
theorem ShowWindow_weakFrame (s : Sys) (h : Nat) (cmd : ShowCmd) :
    weakFramePreserved s (ShowWindow s h cmd) h :=
  ⟨ShowWindow_monitors s h cmd, ShowWindow_sysWork s h cmd,
   fun _ hne => ShowWindow_wins_other s h cmd hne⟩

/-- Helper: `framePreserved` composes. -/
theorem framePreserved_trans {s1 s2 s3 : Sys} {hwnd : Nat}
    (h12 : framePreserved s1 s2 hwnd) (h23 : framePreserved s2 s3 hwnd) :
    framePreserved s1 s3 hwnd := by
  obtain ⟨a1, b1, c1, d1, e1⟩ := h12
  obtain ⟨a2, b2, c2, d2, e2⟩ := h23
  exact ⟨a2.trans a1, b2.trans b1, c2.trans c1, d2.trans d1,
    fun h hne => (e2 h hne).trans (e1 h hne)⟩

/-- Helper: `weakFramePreserved` composes. -/
theorem weakFramePreserved_trans {s1 s2 s3 : Sys} {hwnd : Nat}
    (h12 : weakFramePreserved s1 s2 hwnd)
    (h23 : weakFramePreserved s2 s3 hwnd) :
    weakFramePreserved s1 s3 hwnd := by
  obtain ⟨a1, b1, c1⟩ := h12
  obtain ⟨a2, b2, c2⟩ := h23
  exact ⟨a2.trans a1, b2.trans b1, fun h hne => (c2 h hne).trans (c1 h hne)⟩

/-- Helper: the full frame condition implies the weak one. -/
theorem framePreserved_weaken {s s' : Sys} {hwnd : Nat}
    (h : framePreserved s s' hwnd) : weakFramePreserved s s' hwnd :=
  ⟨h.2.2.1, h.2.2.2.1, h.2.2.2.2⟩

/-- Helper: activation touches only the z-order and the focus. -/
theorem activateWin_weakFrame (s : Sys) (h : Nat) :
    weakFramePreserved s (activateWin s h) h :=
  ⟨rfl, rfl, fun _ _ => rfl⟩

/-- Helper: activation keeps every window's state. -/
theorem activateWin_wins (s : Sys) (h : Nat) :
    (activateWin s h).wins = s.wins := rfl

/-- Helper: activation keeps the monitor directory. -/
theorem activateWin_monitors (s : Sys) (h : Nat) :
    (activateWin s h).monitors = s.monitors := rfl

/-- Helper: activation keeps the fallback work area. -/
theorem activateWin_sysWork (s : Sys) (h : Nat) :
    (activateWin s h).sysWork = s.sysWork := rfl

/-- Helper: the work area is unaffected by activation. -/
theorem workarea_activateWin (s : Sys) (h hmon : Nat) :
    workarea_for_hmon (activateWin s h) hmon = workarea_for_hmon s hmon := rfl

/-- Helper: window rectangles are unaffected by activation. -/
theorem rectOf_activateWin (s : Sys) (h h' : Nat) :
    rectOf (activateWin s h) h' = rectOf s h' := rfl

/-- Helper: activating twice is the same as activating once. -/
theorem activateWin_idem (s : Sys) (h : Nat) :
    activateWin (activateWin s h) h = activateWin s h := by
  simp [activateWin, List.erase_cons_head]

/-- Helper: re-activating a window just shown is a no-op. -/
theorem activateWin_ShowWindow (s : Sys) (h : Nat) (cmd : ShowCmd) :
    activateWin (ShowWindow s h cmd) h = ShowWindow s h cmd := by
  cases cmd <;> exact activateWin_idem _ _

/-- Helper: show-normal on a window that is not maximized only activates
it (geometry and show state are untouched). -/
theorem ShowWindow_showNormal_of_not_max {s : Sys} {h : Nat}
    (hm : (s.wins h).maximized = false) :
    ShowWindow s h ShowCmd.showNormalCmd = activateWin s h := by
  cases s with
  | mk wins zo fo mons sw =>
    simp only [ShowWindow, activateWin, updateWin]
    congr 1
    funext h'
    by_cases he : h' = h
    · subst he
      simp only at hm
      simp [hm]
    · simp [he]

/-- Helper: restoring a maximized window returns it to its remembered
normal placement, not maximized. -/
theorem ShowWindow_restore_wins_self {s : Sys} {h : Nat}
    (hm : (s.wins h).maximized = true) :
    (ShowWindow s h ShowCmd.restoreCmd).wins h =
      { rect := (s.wins h).normalPos, normalPos := (s.wins h).normalPos,
        maximized := false } := by
  simp [ShowWindow, activateWin, updateWin, hm]

/-- Helper: maximizing fills the work area of the window's monitor. -/
theorem ShowWindow_maximize_wins_self (s : Sys) (h : Nat) :
    (ShowWindow s h ShowCmd.maximizeCmd).wins h =
      { rect := maximizedRect s (s.wins h).rect,
        normalPos := (s.wins h).normalPos, maximized := true } := by
  simp [ShowWindow, activateWin, updateWin]

/-- Helper: the maximized rectangle only depends on the monitor directory
and the fallback work area. -/
theorem maximizedRect_congr {s s' : Sys} (r : Rect4)
    (hm : s'.monitors = s.monitors) (hw : s'.sysWork = s.sysWork) :
    maximizedRect s' r = maximizedRect s r := by
  unfold maximizedRect monitorFromRect
  rw [hm, hw]

/-- Helper: the work area only depends on the monitor directory and the
fallback work area. -/
theorem workarea_congr {s s' : Sys} (hmon : Nat)
    (hm : s'.monitors = s.monitors) (hw : s'.sysWork = s.sysWork) :
    workarea_for_hmon s' hmon = workarea_for_hmon s hmon := by
  unfold workarea_for_hmon
  rw [hm, hw]

/-- Helper: on a maximized window the engine first restores, then behaves
exactly as if invoked on the restored state (whose show-normal step only
re-activates the already-activated window). -/
theorem move_and_set_of_max (s : Sys) (hwnd hmon : Nat) (mode : String)
    (hm : (s.wins hwnd).maximized = true) :
    move_and_set s hwnd hmon mode =
      move_and_set (ShowWindow s hwnd ShowCmd.restoreCmd) hwnd hmon mode := by
  have h2 : ((ShowWindow s hwnd ShowCmd.restoreCmd).wins hwnd).maximized =
      false := by
    rw [ShowWindow_restore_wins_self hm]
  simp only [move_and_set]
  rw [if_pos hm,
    if_neg (show ¬ ((ShowWindow s hwnd ShowCmd.restoreCmd).wins
      hwnd).maximized = true by simp [h2]),
    ShowWindow_showNormal_of_not_max h2, activateWin_ShowWindow]

/-- Helper: normal-mode placement on a non-maximized window activates the
window and moves its clamped current size to the 20 px inset of the work
area. -/
theorem move_and_set_normal_eq (s : Sys) (hwnd hmon : Nat)
    (hm : (s.wins hwnd).maximized = false) :
    move_and_set s hwnd hmon "normal" =
      SetWindowPos (activateWin s hwnd) hwnd
        ((workarea_for_hmon s hmon).1 + 20)
        ((workarea_for_hmon s hmon).2.1 + 20)
        (max 300 (min ((rectOf s hwnd).2.2.1 - (rectOf s hwnd).1)
          (((workarea_for_hmon s hmon).2.2.1 -
            (workarea_for_hmon s hmon).1) - 40)))
        (max 200 (min ((rectOf s hwnd).2.2.2 - (rectOf s hwnd).2.1)
          (((workarea_for_hmon s hmon).2.2.2 -
            (workarea_for_hmon s hmon).2.1) - 40)))
        SWP_PLACE_FLAGS := by
  simp only [move_and_set]
  rw [if_neg (show ¬ (s.wins hwnd).maximized = true by simp [hm]),
    ShowWindow_showNormal_of_not_max hm, workarea_activateWin,
    rectOf_activateWin]
  simp

/-- Helper: maximize-mode placement on a non-maximized window activates,
parks, then maximizes. -/
theorem move_and_set_max_eq (s : Sys) (hwnd hmon : Nat)
    (hm : (s.wins hwnd).maximized = false) :
    move_and_set s hwnd hmon "maximize" =
      ShowWindow
        (SetWindowPos (activateWin s hwnd) hwnd
          (parkRect (workarea_for_hmon s hmon).1 (workarea_for_hmon s hmon).2.1
            (workarea_for_hmon s hmon).2.2.1
            (workarea_for_hmon s hmon).2.2.2).1
          (parkRect (workarea_for_hmon s hmon).1 (workarea_for_hmon s hmon).2.1
            (workarea_for_hmon s hmon).2.2.1
            (workarea_for_hmon s hmon).2.2.2).2.1
          ((parkRect (workarea_for_hmon s hmon).1 (workarea_for_hmon s hmon).2.1
            (workarea_for_hmon s hmon).2.2.1
            (workarea_for_hmon s hmon).2.2.2).2.2.1 -
           (parkRect (workarea_for_hmon s hmon).1 (workarea_for_hmon s hmon).2.1
            (workarea_for_hmon s hmon).2.2.1
            (workarea_for_hmon s hmon).2.2.2).1)
          ((parkRect (workarea_for_hmon s hmon).1 (workarea_for_hmon s hmon).2.1
            (workarea_for_hmon s hmon).2.2.1
            (workarea_for_hmon s hmon).2.2.2).2.2.2 -
           (parkRect (workarea_for_hmon s hmon).1 (workarea_for_hmon s hmon).2.1
            (workarea_for_hmon s hmon).2.2.1
            (workarea_for_hmon s hmon).2.2.2).2.1)
          SWP_PLACE_FLAGS)
        hwnd ShowCmd.maximizeCmd := by
  simp only [move_and_set]
  rw [if_neg (show ¬ (s.wins hwnd).maximized = true by simp [hm]),
    ShowWindow_showNormal_of_not_max hm, workarea_activateWin]
  simp

/-- Helper: fill-work-area placement (any mode other than normal and
maximize) on a non-maximized window activates, parks, then resizes to the
work area. -/
theorem move_and_set_fill_eq (s : Sys) (hwnd hmon : Nat) (mode : String)
    (hm : (s.wins hwnd).maximized = false) (hn : ¬ mode = "normal")
    (hx : ¬ mode = "maximize") :
    move_and_set s hwnd hmon mode =
      SetWindowPos
        (SetWindowPos (activateWin s hwnd) hwnd
          (parkRect (workarea_for_hmon s hmon).1 (workarea_for_hmon s hmon).2.1
            (workarea_for_hmon s hmon).2.2.1
            (workarea_for_hmon s hmon).2.2.2).1
          (parkRect (workarea_for_hmon s hmon).1 (workarea_for_hmon s hmon).2.1
            (workarea_for_hmon s hmon).2.2.1
            (workarea_for_hmon s hmon).2.2.2).2.1
          ((parkRect (workarea_for_hmon s hmon).1 (workarea_for_hmon s hmon).2.1
            (workarea_for_hmon s hmon).2.2.1
            (workarea_for_hmon s hmon).2.2.2).2.2.1 -
           (parkRect (workarea_for_hmon s hmon).1 (workarea_for_hmon s hmon).2.1
            (workarea_for_hmon s hmon).2.2.1
            (workarea_for_hmon s hmon).2.2.2).1)
          ((parkRect (workarea_for_hmon s hmon).1 (workarea_for_hmon s hmon).2.1
            (workarea_for_hmon s hmon).2.2.1
            (workarea_for_hmon s hmon).2.2.2).2.2.2 -
           (parkRect (workarea_for_hmon s hmon).1 (workarea_for_hmon s hmon).2.1
            (workarea_for_hmon s hmon).2.2.1
            (workarea_for_hmon s hmon).2.2.2).2.1)
          SWP_PLACE_FLAGS)
        hwnd (workarea_for_hmon s hmon).1 (workarea_for_hmon s hmon).2.1
        ((workarea_for_hmon s hmon).2.2.1 - (workarea_for_hmon s hmon).1)
        ((workarea_for_hmon s hmon).2.2.2 - (workarea_for_hmon s hmon).2.1)
        SWP_PLACE_FLAGS := by
  simp only [move_and_set]
  rw [if_neg (show ¬ (s.wins hwnd).maximized = true by simp [hm]),
    ShowWindow_showNormal_of_not_max hm, workarea_activateWin,
    if_neg hn, if_neg hx]

/-- C9 counterexample: in the concrete desktop the focus lies on window 2
and window 2 is frontmost, yet placing window 1 in Maximize mode
transfers the focus to window 1 and raises it to the front: the
restore/show-normal and maximize commands the source issues are the
activating ShowWindow variants (`SW_SHOWNORMAL`, `SW_RESTORE`,
`SW_MAXIMIZE`), which per the Win32 contract activate the window — only
the SetWindowPos calls carry `SWP_NOACTIVATE | SWP_NOZORDER`. -/
theorem c9_counterexample :
    sysC.focus = some 2 ∧ sysC.zorder = [2, 1] ∧
    (move_and_set sysC 1 0 "maximize").focus = some 1 ∧
    (move_and_set sysC 1 0 "maximize").zorder = [1, 2] := by
  exact ⟨rfl, rfl, by decide, by decide⟩

/-- Helper: placement on a non-maximized start changes nothing outside the
placed window, the z-order and the focus, and always leaves the placed
window focused and frontmost. -/
theorem c9_aux (t : Sys) (hwnd hmon : Nat) (mode : String)
    (hm : (t.wins hwnd).maximized = false) :
    weakFramePreserved t (move_and_set t hwnd hmon mode) hwnd ∧
    (move_and_set t hwnd hmon mode).focus = some hwnd ∧
    (move_and_set t hwnd hmon mode).zorder = hwnd :: t.zorder.erase hwnd := by
  by_cases hn : mode = "normal"
  · subst hn
    rw [move_and_set_normal_eq t hwnd hmon hm]
    refine ⟨?_, ?_, ?_⟩
    · exact weakFramePreserved_trans (activateWin_weakFrame t hwnd)
        (framePreserved_weaken (SetWindowPos_place_frame _ hwnd _ _ _ _))
    · rw [(SetWindowPos_place_frame _ hwnd _ _ _ _).2.1]
      rfl
    · rw [(SetWindowPos_place_frame _ hwnd _ _ _ _).1]
      rfl
  · by_cases hx : mode = "maximize"
    · subst hx
      rw [move_and_set_max_eq t hwnd hmon hm]
      refine ⟨?_, ?_, ?_⟩
      · exact weakFramePreserved_trans (activateWin_weakFrame t hwnd)
          (weakFramePreserved_trans
            (framePreserved_weaken (SetWindowPos_place_frame _ hwnd _ _ _ _))
            (ShowWindow_weakFrame _ hwnd _))
      · rw [ShowWindow_focus]
      · rw [ShowWindow_zorder, (SetWindowPos_place_frame _ hwnd _ _ _ _).1]
        simp [activateWin]
    · rw [move_and_set_fill_eq t hwnd hmon mode hm hn hx]
      refine ⟨?_, ?_, ?_⟩
      · exact weakFramePreserved_trans (activateWin_weakFrame t hwnd)
          (weakFramePreserved_trans
            (framePreserved_weaken (SetWindowPos_place_frame _ hwnd _ _ _ _))
            (framePreserved_weaken (SetWindowPos_place_frame _ hwnd _ _ _ _)))
      · rw [(SetWindowPos_place_frame _ hwnd _ _ _ _).2.1,
          (SetWindowPos_place_frame _ hwnd _ _ _ _).2.1]
        rfl
      · rw [(SetWindowPos_place_frame _ hwnd _ _ _ _).1,
          (SetWindowPos_place_frame _ hwnd _ _ _ _).1]
        rfl

/-- C9 (amended): every move/resize the Placement Engine issues goes
through SetWindowPos with `SWP_NOZORDER | SWP_NOACTIVATE`, and such a call
changes neither the z-order nor the focus nor anything but the placed
window; a whole placement invocation changes nothing outside the placed
window's own state, the z-order and the focus — but because the restore,
show-normal and maximize commands are the ACTIVATING ShowWindow variants,
every placement invocation does transfer the focus to the placed window
and raises it to the top of the z-order. -/
theorem c9_placement_amended (s : Sys) (hwnd hmon : Nat) (mode : String) :
    (∀ x y w ht : Int,
       framePreserved s (SetWindowPos s hwnd x y w ht SWP_PLACE_FLAGS) hwnd) ∧
    weakFramePreserved s (move_and_set s hwnd hmon mode) hwnd ∧
    (move_and_set s hwnd hmon mode).focus = some hwnd ∧
    (move_and_set s hwnd hmon mode).zorder = hwnd :: s.zorder.erase hwnd := by
  refine ⟨fun x y w ht => SetWindowPos_place_frame s hwnd x y w ht, ?_⟩
  by_cases hm : (s.wins hwnd).maximized = true
  · rw [move_and_set_of_max s hwnd hmon mode hm]
    have h2 : ((ShowWindow s hwnd ShowCmd.restoreCmd).wins hwnd).maximized =
        false := by
      rw [ShowWindow_restore_wins_self hm]
    obtain ⟨hwk, hf, hz⟩ :=
      c9_aux (ShowWindow s hwnd ShowCmd.restoreCmd) hwnd hmon mode h2
    refine ⟨weakFramePreserved_trans (ShowWindow_weakFrame s hwnd _) hwk,
      hf, ?_⟩
    rw [hz, ShowWindow_zorder]
    simp
  · exact c9_aux s hwnd hmon mode (by simpa using hm)

/-- Helper: equal rectangles are within tolerance. -/
theorem rect_changed_self (r : Rect4) : rect_changed (some r) (some r) = false := by
  obtain ⟨a, b, c, d⟩ := r
  simp [rect_changed, RECT_TOL]

/-- Helper: a placement SetWindowPos leaves the window non-maximized. -/
theorem SetWindowPos_place_nonmax (s : Sys) (h : Nat) (x y w ht : Int) :
    ((SetWindowPos s h x y w ht SWP_PLACE_FLAGS).wins h).maximized = false := by
  rw [SetWindowPos_place_wins_self]

/-- Helper: the rectangle written by a placement SetWindowPos. -/
theorem SetWindowPos_place_rectOf (s : Sys) (h : Nat) (x y w ht : Int) :
    rectOf (SetWindowPos s h x y w ht SWP_PLACE_FLAGS) h =
      (x, y, x + w, y + ht) := by
  unfold rectOf
  rw [SetWindowPos_place_wins_self]

/-- Helper: normal-mode placement is idempotent on the window rectangle
(the clamped size is a fixed point of the clamping). -/
theorem c8_aux_normal (t : Sys) (hwnd hmon : Nat)
    (hm : (t.wins hwnd).maximized = false) :
    rectOf (move_and_set (move_and_set t hwnd hmon "normal") hwnd hmon
      "normal") hwnd = rectOf (move_and_set t hwnd hmon "normal") hwnd := by
  rw [move_and_set_normal_eq t hwnd hmon hm]
  set wa := workarea_for_hmon t hmon with hwa
  set CW := max 300 (min ((rectOf t hwnd).2.2.1 - (rectOf t hwnd).1)
    (wa.2.2.1 - wa.1 - 40)) with hCW
  set CH := max 200 (min ((rectOf t hwnd).2.2.2 - (rectOf t hwnd).2.1)
    (wa.2.2.2 - wa.2.1 - 40)) with hCH
  set u := SetWindowPos (activateWin t hwnd) hwnd (wa.1 + 20) (wa.2.1 + 20)
    CW CH SWP_PLACE_FLAGS with hu
  have hu_nonmax : ((u.wins hwnd)).maximized = false := by
    rw [hu]
    exact SetWindowPos_place_nonmax (activateWin t hwnd) hwnd _ _ _ _
  have hu_mons : u.monitors = t.monitors := by
    rw [hu, (SetWindowPos_place_frame _ hwnd _ _ _ _).2.2.1,
      activateWin_monitors]
  have hu_sys : u.sysWork = t.sysWork := by
    rw [hu, (SetWindowPos_place_frame _ hwnd _ _ _ _).2.2.2.1,
      activateWin_sysWork]
  have hu_wa : workarea_for_hmon u hmon = wa := by
    rw [workarea_congr hmon hu_mons hu_sys, hwa]
  have hu_rect : rectOf u hwnd =
      (wa.1 + 20, wa.2.1 + 20, wa.1 + 20 + CW, wa.2.1 + 20 + CH) := by
    rw [hu]
    exact SetWindowPos_place_rectOf (activateWin t hwnd) hwnd _ _ _ _
  rw [move_and_set_normal_eq u hwnd hmon hu_nonmax, hu_wa, hu_rect,
    SetWindowPos_place_rectOf]
  simp only [Prod.mk.injEq, true_and]
  constructor
  · omega
  · omega

/-- Helper: maximize-mode placement is idempotent on the window rectangle
(both invocations park at the same rectangle and maximize onto the same
monitor). -/
theorem c8_aux_max (t : Sys) (hwnd hmon : Nat)
    (hm : (t.wins hwnd).maximized = false) :
    rectOf (move_and_set (move_and_set t hwnd hmon "maximize") hwnd hmon
      "maximize") hwnd = rectOf (move_and_set t hwnd hmon "maximize") hwnd := by
  rw [move_and_set_max_eq t hwnd hmon hm]
  set wa := workarea_for_hmon t hmon with hwa
  set pk := parkRect wa.1 wa.2.1 wa.2.2.1 wa.2.2.2 with hpk
  set u := SetWindowPos (activateWin t hwnd) hwnd pk.1 pk.2.1
    (pk.2.2.1 - pk.1) (pk.2.2.2 - pk.2.1) SWP_PLACE_FLAGS with hu
  set v := ShowWindow u hwnd ShowCmd.maximizeCmd with hv
  have hv_wins : v.wins hwnd =
      { rect := maximizedRect u (u.wins hwnd).rect,
        normalPos := (u.wins hwnd).normalPos, maximized := true } := by
    rw [hv]
    exact ShowWindow_maximize_wins_self u hwnd
  have hv_max : (v.wins hwnd).maximized = true := by rw [hv_wins]
  rw [move_and_set_of_max v hwnd hmon "maximize" hv_max]
  set w := ShowWindow v hwnd ShowCmd.restoreCmd with hw
  have hw_wins : w.wins hwnd =
      { rect := (v.wins hwnd).normalPos, normalPos := (v.wins hwnd).normalPos,
        maximized := false } := by
    rw [hw]
    exact ShowWindow_restore_wins_self hv_max
  have hw_nonmax : (w.wins hwnd).maximized = false := by rw [hw_wins]
  have hu_mons : u.monitors = t.monitors := by
    rw [hu, (SetWindowPos_place_frame _ hwnd _ _ _ _).2.2.1,
      activateWin_monitors]
  have hu_sys : u.sysWork = t.sysWork := by
    rw [hu, (SetWindowPos_place_frame _ hwnd _ _ _ _).2.2.2.1,
      activateWin_sysWork]
  have hv_mons : v.monitors = t.monitors := by
    rw [hv, ShowWindow_monitors]
    exact hu_mons
  have hv_sys : v.sysWork = t.sysWork := by
    rw [hv, ShowWindow_sysWork]
    exact hu_sys
  have hw_mons : w.monitors = t.monitors := by
    rw [hw, ShowWindow_monitors]
    exact hv_mons
  have hw_sys : w.sysWork = t.sysWork := by
    rw [hw, ShowWindow_sysWork]
    exact hv_sys
  have hw_wa : workarea_for_hmon w hmon = wa := by
    rw [workarea_congr hmon hw_mons hw_sys, hwa]
  rw [move_and_set_max_eq w hwnd hmon hw_nonmax, hw_wa]
  set u2 := SetWindowPos (activateWin w hwnd) hwnd pk.1 pk.2.1
    (pk.2.2.1 - pk.1) (pk.2.2.2 - pk.2.1) SWP_PLACE_FLAGS with hu2
  have hu2_wins : u2.wins hwnd = u.wins hwnd := by
    rw [hu2, hu, SetWindowPos_place_wins_self, SetWindowPos_place_wins_self]
  have hu2_mons : u2.monitors = u.monitors := by
    rw [hu2, (SetWindowPos_place_frame _ hwnd _ _ _ _).2.2.1,
      activateWin_monitors, hw_mons, ← hu_mons]
  have hu2_sys : u2.sysWork = u.sysWork := by
    rw [hu2, (SetWindowPos_place_frame _ hwnd _ _ _ _).2.2.2.1,
      activateWin_sysWork, hw_sys, ← hu_sys]
  unfold rectOf
  rw [ShowWindow_maximize_wins_self u2 hwnd, hv_wins]
  simp only
  rw [hu2_wins, maximizedRect_congr _ hu2_mons hu2_sys]

/-- Helper: fill-work-area placement is idempotent on the window rectangle
(the final move targets the work area itself both times). -/
theorem c8_aux_fill (t : Sys) (hwnd hmon : Nat) (mode : String)
    (hm : (t.wins hwnd).maximized = false) (hn : ¬ mode = "normal")
    (hx : ¬ mode = "maximize") :
    rectOf (move_and_set (move_and_set t hwnd hmon mode) hwnd hmon mode)
      hwnd = rectOf (move_and_set t hwnd hmon mode) hwnd := by
  rw [move_and_set_fill_eq t hwnd hmon mode hm hn hx]
  set wa := workarea_for_hmon t hmon with hwa
  set pk := parkRect wa.1 wa.2.1 wa.2.2.1 wa.2.2.2 with hpk
  set u := SetWindowPos (activateWin t hwnd) hwnd pk.1 pk.2.1
    (pk.2.2.1 - pk.1) (pk.2.2.2 - pk.2.1) SWP_PLACE_FLAGS with hu
  set v := SetWindowPos u hwnd wa.1 wa.2.1 (wa.2.2.1 - wa.1)
    (wa.2.2.2 - wa.2.1) SWP_PLACE_FLAGS with hv
  have hv_nonmax : (v.wins hwnd).maximized = false := by
    rw [hv]
    exact SetWindowPos_place_nonmax u hwnd _ _ _ _
  have hv_mons : v.monitors = t.monitors := by
    rw [hv, (SetWindowPos_place_frame u hwnd _ _ _ _).2.2.1, hu,
      (SetWindowPos_place_frame _ hwnd _ _ _ _).2.2.1, activateWin_monitors]
  have hv_sys : v.sysWork = t.sysWork := by
    rw [hv, (SetWindowPos_place_frame u hwnd _ _ _ _).2.2.2.1, hu,
      (SetWindowPos_place_frame _ hwnd _ _ _ _).2.2.2.1, activateWin_sysWork]
  have hv_wa : workarea_for_hmon v hmon = wa := by
    rw [workarea_congr hmon hv_mons hv_sys, hwa]
  rw [move_and_set_fill_eq v hwnd hmon mode hv_nonmax hn hx, hv_wa]
  rw [SetWindowPos_place_rectOf, hv, SetWindowPos_place_rectOf]

/-- C8: the place operation is idempotent — for every desktop state,
window, target monitor and mode string, a second invocation with the same
arguments leaves the window rectangle within the source's own 3 px
tolerance (in fact identical) to the rectangle produced by the first. -/
theorem c8_place_idempotent (s : Sys) (hwnd hmon : Nat) (mode : String) :
    rect_changed
      (some (rectOf (move_and_set (move_and_set s hwnd hmon mode) hwnd hmon
        mode) hwnd))
      (some (rectOf (move_and_set s hwnd hmon mode) hwnd)) = false := by
  have key : ∀ t : Sys, (t.wins hwnd).maximized = false →
      rectOf (move_and_set (move_and_set t hwnd hmon mode) hwnd hmon mode)
        hwnd = rectOf (move_and_set t hwnd hmon mode) hwnd := by
    intro t ht
    by_cases hn : mode = "normal"
    · subst hn
      exact c8_aux_normal t hwnd hmon ht
    · by_cases hx : mode = "maximize"
      · subst hx
        exact c8_aux_max t hwnd hmon ht
      · exact c8_aux_fill t hwnd hmon mode ht hn hx
  by_cases hm : (s.wins hwnd).maximized = true
  · rw [move_and_set_of_max s hwnd hmon mode hm]
    rw [key (ShowWindow s hwnd ShowCmd.restoreCmd)
      (by rw [ShowWindow_restore_wins_self hm])]
    exact rect_changed_self _
  · rw [key s (by simpa using hm)]
    exact rect_changed_self _

/-- C2 witness: the amended characterization applied to the concrete
window carrying all main-window style bits and no tool-window bit. -/
theorem c2_witness : is_main_style cexWindow = true :=
  (c2_is_main_style_amended cexWindow).mpr
    ⟨Or.inl (by decide), by decide⟩

/-- C3 witness: the amended characterization evaluated on the concrete
three-poll trace (the loop's result equals the first threshold-reaching
state of the state trajectory). -/
theorem c3_witness :
    waitStable { hwnd := none, lastRect := none, stableMs := 0 } acqTraceC3 =
      ((stableStates { hwnd := none, lastRect := none, stableMs := 0 }
          acqTraceC3).find?
        (fun st => decide (STABLE_MS_BEFORE_MOVE ≤ st.stableMs))).bind
        (fun st => st.hwnd) :=
  (c3_stability_policy_amended
    { hwnd := none, lastRect := none, stableMs := 0 } 0 none acqTraceC3).2

/-- C8 witness: idempotence evaluated at the concrete desktop. -/
theorem c8_witness :
    rect_changed
      (some (rectOf (move_and_set (move_and_set sysC 1 0 "workarea") 1 0
        "workarea") 1))
      (some (rectOf (move_and_set sysC 1 0 "workarea") 1)) = false :=
  c8_place_idempotent sysC 1 0 "workarea"

/-- C9 witness: the amended theorem applied at the concrete desktop:
outside the placed window only the z-order and the focus change, and the
placed window ends focused. -/
theorem c9_witness :
    weakFramePreserved sysC (move_and_set sysC 1 0 "maximize") 1 ∧
    (move_and_set sysC 1 0 "maximize").focus = some 1 :=
  ⟨(c9_placement_amended sysC 1 0 "maximize").2.1,
   (c9_placement_amended sysC 1 0 "maximize").2.2.1⟩

/-- C10 witness: the theorem evaluated at a concrete window list and a
concrete two-poll sequence. -/
theorem c10_witness :
    pick_best_window_by none none (some []) [cexWindow] = none ∧
    wait_for_stable_window EARLY_MOVE_ON_DETECT
      ([[cexWindow], [cexWindow]].map (fun vs =>
        { cand := pick_best_window_by none none (some []) vs,
          curRect := none })) = none :=
  c10_relaxed_attempt_empty_snapshot [cexWindow] [[cexWindow], [cexWindow]]
